import Mathlib

/-!
Shallow embedding of the scoring core of the `ipo_ml_screener` repository:
`momentum.py` (`compute_momentum_flags`), `market.py` (`compute_price_summary`),
and `scoring.py` (`compute_hard_gates`, `compute_total_score`).

Python floats are modelled as exact rationals; a value that the code represents
as `None`/NaN (and that `_to_float` would map to `None`) is modelled as `none`.
A pandas DataFrame is modelled by the two columns the core reads (`Close`,
`Volume`): flags for column presence plus the per-row optional values.
-/

/-- One row of the OHLCV price-history table, restricted to the two columns the
core reads. `none` models a null/NaN entry. -/
structure Row where
  close : Option ℚ
  volume : Option ℚ
deriving Repr, DecidableEq

/-- A price-history DataFrame: whether the `Close`/`Volume` columns exist, and
the rows. An absent DataFrame (`hist is None`) is modelled as `none : Option Hist`
at use sites; `hist.empty` corresponds to `rows = []`. -/
structure Hist where
  hasClose : Bool
  hasVolume : Bool
  rows : List Row
deriving Repr, DecidableEq

/-- The `PriceSummary` dataclass of `market.py`. -/
structure PriceSummary where
  ticker : String
  last_close : Option ℚ
  avg_dollar_vol_20d : Option ℚ
  market_cap : Option ℚ
  currency : Option String
deriving Repr, DecidableEq

/-- The `sec_metrics` mapping consumed by `scoring.py`, after `_to_float`
coercion: each field is the coerced value of the corresponding key, `none` when
the key is missing or the value is null/NaN/non-numeric. -/
structure SecMetrics where
  cash_and_equivalents : Option ℚ
  operating_cash_flow : Option ℚ
  free_cash_flow : Option ℚ
  gross_margin : Option ℚ
  stock_based_compensation : Option ℚ
deriving Repr, DecidableEq

/-- The `thresholds` mapping of `compute_hard_gates`: `none` models a missing
key, read through `thresholds.get(key, default)`. -/
structure Thresholds where
  min_avg_dollar_vol_20d : Option ℚ
  min_market_cap : Option ℚ
  min_price : Option ℚ
  min_gross_margin : Option ℚ
  min_runway_months : Option ℚ
deriving Repr, DecidableEq

/-- The `weights` mapping of `compute_total_score`: `none` models a missing key. -/
structure Weights where
  liquidity : Option ℚ
  momentum : Option ℚ
  fundamentals : Option ℚ
deriving Repr, DecidableEq

/-- The dict returned by `compute_hard_gates` in `scoring.py`. -/
structure HardGateResult where
  pass_hard_gates : Bool
  data_sufficient_fundamentals : Bool
  avg_dollar_vol_20d : Option ℚ
  market_cap : Option ℚ
  last_close : Option ℚ
  cash_and_equivalents : Option ℚ
  operating_cash_flow : Option ℚ
  free_cash_flow : Option ℚ
  gross_margin : Option ℚ
  stock_based_compensation : Option ℚ
  runway_months : Option ℚ
  gate_liquidity : Bool
  gate_market_cap : Bool
  gate_price : Bool
  gate_gross_margin : Bool
  gate_runway : Bool
  days_since_ipo : Option ℤ
deriving Repr, DecidableEq

/-- The dict returned by `compute_momentum_flags` in `momentum.py`. An `Option`
field models presence of the corresponding key in the returned dict: the two
early returns carry only `pass_momentum`, `reason` (and `n_close` for the
insufficient-history return), while the full return carries all flag and value
keys and no `reason` key. -/
structure MomentumResult where
  pass_momentum : Bool
  reason : Option String
  n_close : Option ℕ
  cond_ma_stack : Option Bool
  cond_slope_up : Option Bool
  cond_ret : Option Bool
  cond_drawdown : Option Bool
  cond_dev : Option Bool
  last_close : Option ℚ
  last_sma_fast : Option ℚ
  last_sma_slow : Option ℚ
  sma_fast_slope : Option ℚ
  ret_window : Option ℕ
  ret : Option ℚ
  peak_window : Option ℕ
  drawdown_from_peak : Option ℚ
  dev_from_sma_fast : Option ℚ
deriving Repr, DecidableEq

/-- The `score_components` sub-dict of `compute_total_score`. -/
structure ScoreComponents where
  liquidity : ℚ
  momentum : ℚ
  fundamentals : ℚ
deriving Repr, DecidableEq

/-- The dict returned by `compute_total_score`. -/
structure CompositeScore where
  score_total : ℚ
  score_components : ScoreComponents
deriving Repr, DecidableEq

/-- Python `s.tail(n)` on a list: the last `n` elements. -/
def takeLast (n : ℕ) (l : List ℚ) : List ℚ := l.drop (l.length - n)

/-- pandas `s.rolling(n, min_periods=n).mean()` evaluated at the last index:
the mean of the last `n` values when at least `n` values exist, NaN (`none`)
otherwise (`momentum.py`, `_sma`, read at `iloc[-1]` with `pd.isna` guard). -/
def lastSMA (l : List ℚ) (n : ℕ) : Option ℚ :=
  if 0 < n ∧ n ≤ l.length then some ((takeLast n l).sum / (n : ℚ)) else none

/-- pandas `s.rolling(n, min_periods=n).mean()` with the leading NaNs dropped:
the rolling mean of each length-`n` window, one entry per window. -/
def smaSeries (l : List ℚ) (n : ℕ) : List ℚ :=
  if 0 < n ∧ n ≤ l.length then
    (List.range (l.length - n + 1)).map (fun i => ((l.drop i).take n).sum / (n : ℚ))
  else []

/-- `momentum._slope_last_n`: ordinary-least-squares slope of the last `n`
points of `y` against `x = 0..n-1`; `none` when fewer than `n` points exist or
`var(x) = 0`. For integer `x = 0..n-1`, `np.var(x) = (n*n-1)/12`, which is zero
exactly for `n = 1`; the degenerate `n = 0` case propagates NaN in the source
and is likewise modelled as `none`. -/
def slope_last_n (y : List ℚ) (n : ℕ) : Option ℚ :=
  let t := takeLast n y
  if t.length < n then none
  else if n ≤ 1 then none
  else
    let xs : List ℚ := (List.range n).map (fun i => (i : ℚ))
    let xbar := xs.sum / (n : ℚ)
    let ybar := t.sum / (n : ℚ)
    let cov := ((xs.zip t).map (fun p => (p.1 - xbar) * (p.2 - ybar))).sum / (n : ℚ)
    let vx := (xs.map (fun x => (x - xbar) * (x - xbar))).sum / (n : ℚ)
    some (cov / vx)

/-- The non-null close series of a DataFrame:
`pd.to_numeric(hist["Close"], errors="coerce").dropna()`. -/
def closeSeries (h : Hist) : List ℚ := h.rows.filterMap (fun r => r.close)

/-- The early return `{"pass_momentum": False, "reason": "no_price_data"}`. -/
def noPriceDataResult : MomentumResult :=
  { pass_momentum := false, reason := some "no_price_data", n_close := none,
    cond_ma_stack := none, cond_slope_up := none, cond_ret := none,
    cond_drawdown := none, cond_dev := none, last_close := none,
    last_sma_fast := none, last_sma_slow := none, sma_fast_slope := none,
    ret_window := none, ret := none, peak_window := none,
    drawdown_from_peak := none, dev_from_sma_fast := none }

/-- The early return
`{"pass_momentum": False, "reason": "insufficient_history", "n_close": n}`. -/
def insufficientHistoryResult (n : ℕ) : MomentumResult :=
  { pass_momentum := false, reason := some "insufficient_history", n_close := some n,
    cond_ma_stack := none, cond_slope_up := none, cond_ret := none,
    cond_drawdown := none, cond_dev := none, last_close := none,
    last_sma_fast := none, last_sma_slow := none, sma_fast_slope := none,
    ret_window := none, ret := none, peak_window := none,
    drawdown_from_peak := none, dev_from_sma_fast := none }

/-- The main branch of `compute_momentum_flags`, reached once the close series
is non-empty and long enough. -/
def momentumSufficient (close : List ℚ) (sma_fast sma_slow slope_window ret_window : ℕ)
    (ret_min : ℚ) (peak_window : ℕ) (max_drawdown max_dev_sma_fast : ℚ) : MomentumResult :=
  let sma20 := smaSeries close sma_fast
  let last_close := close.getLastD 0
  let last_sma20 := lastSMA close sma_fast
  let last_sma50 := lastSMA close sma_slow
  let cond_ma_stack :=
    match last_sma20, last_sma50 with
    | some f, some s => decide (s < f) && decide (f < last_close)
    | _, _ => false
  let slope := slope_last_n sma20 slope_window
  let cond_slope_up :=
    match slope with
    | some s => decide (0 < s)
    | none => false
  let c0 : Option ℚ :=
    if ret_window < close.length then some (close.getD (close.length - 1 - ret_window) 0)
    else none
  let ret : Option ℚ :=
    match c0 with
    | some c => if 0 < c then some (last_close / c - 1) else none
    | none => none
  let cond_ret :=
    match ret with
    | some r => decide (ret_min ≤ r)
    | none => false
  let peak := (takeLast peak_window close).max?
  let dd : Option ℚ :=
    match peak with
    | some p => if 0 < p then some (1 - last_close / p) else none
    | none => none
  let cond_drawdown :=
    match dd with
    | some d => decide (d ≤ max_drawdown)
    | none => false
  let dev : Option ℚ :=
    match last_sma20 with
    | some f => if 0 < f then some (last_close / f - 1) else none
    | none => none
  let cond_dev :=
    match dev with
    | some d => decide (d ≤ max_dev_sma_fast)
    | none => false
  let pass_momentum := cond_ma_stack && cond_slope_up && cond_ret && cond_drawdown && cond_dev
  { pass_momentum := pass_momentum, reason := none, n_close := none,
    cond_ma_stack := some cond_ma_stack, cond_slope_up := some cond_slope_up,
    cond_ret := some cond_ret, cond_drawdown := some cond_drawdown,
    cond_dev := some cond_dev, last_close := some last_close,
    last_sma_fast := last_sma20, last_sma_slow := last_sma50,
    sma_fast_slope := slope, ret_window := some ret_window, ret := ret,
    peak_window := some peak_window, drawdown_from_peak := dd,
    dev_from_sma_fast := dev }

/-- `momentum.compute_momentum_flags`. The parameters follow the source
signature: `sma_fast`, `sma_slow`, `slope_window`, `ret_window`, `ret_min`,
`peak_window`, `max_drawdown`, `max_dev_sma_fast` (source defaults
`20, 50, 20, 20, 0.05, 60, 0.08, 0.15`). -/
def compute_momentum_flags (hist : Option Hist) (sma_fast sma_slow slope_window ret_window : ℕ)
    (ret_min : ℚ) (peak_window : ℕ) (max_drawdown max_dev_sma_fast : ℚ) : MomentumResult :=
  match hist with
  | none => noPriceDataResult
  | some h =>
    if h.rows = [] ∨ h.hasClose = false then noPriceDataResult
    else
      let close := closeSeries h
      if close = [] ∨ close.length < max sma_slow (max peak_window ret_window) + 5 then
        insufficientHistoryResult close.length
      else
        momentumSufficient close sma_fast sma_slow slope_window ret_window ret_min
          peak_window max_drawdown max_dev_sma_fast

/-- Strict gate of `compute_hard_gates`: `(v is not None) and (v >= min_v)`. -/
def strictGate (v : Option ℚ) (min_v : ℚ) : Bool :=
  match v with
  | some x => decide (min_v ≤ x)
  | none => false

/-- `sum(fundamentals_present)` in `compute_hard_gates`: how many of the five
fundamentals fields are present after `_to_float`. -/
def fundamentalsPresentCount (sec_metrics : SecMetrics) : ℕ :=
  ([sec_metrics.cash_and_equivalents.isSome, sec_metrics.operating_cash_flow.isSome,
    sec_metrics.free_cash_flow.isSome, sec_metrics.gross_margin.isSome,
    sec_metrics.stock_based_compensation.isSome].count true)

/-- Soft gross-margin gate: defaults to `True`; compared against the threshold
only when data is sufficient and `gross_margin` is present. -/
def gateGrossMarginOf (dsf : Bool) (min_gm : ℚ) (gm : Option ℚ) : Bool :=
  match gm with
  | some g => if dsf then decide (min_gm ≤ g) else true
  | none => true

/-- The burn heuristic of `compute_hard_gates`: `-fcf` when `fcf < 0`, else
`-cfo` when `cfo < 0`, else `None`. -/
def burnOf (fcf cfo : Option ℚ) : Option ℚ :=
  match fcf with
  | some f =>
    if f < 0 then some (-f)
    else
      match cfo with
      | some c => if c < 0 then some (-c) else none
      | none => none
  | none =>
    match cfo with
    | some c => if c < 0 then some (-c) else none
    | none => none

/-- `runway_months = 12 * cash / burn`, computed only when `cash` is present
and a positive burn exists. -/
def runwayMonthsOf (cash burn : Option ℚ) : Option ℚ :=
  match cash, burn with
  | some c, some b => if 0 < b then some (12 * (c / b)) else none
  | _, _ => none

/-- Soft runway gate: defaults to `True`; compared against the threshold only
when `runway_months` was computed and data is sufficient. -/
def gateRunwayOf (dsf : Bool) (min_runway : ℚ) (rm : Option ℚ) : Bool :=
  match rm with
  | some r => if dsf then decide (min_runway ≤ r) else true
  | none => true

/-- `scoring.compute_hard_gates`. -/
def compute_hard_gates (price_summary : PriceSummary) (sec_metrics : SecMetrics)
    (days_since_ipo : Option ℤ) (thresholds : Thresholds) : HardGateResult :=
  let min_dollar_vol := thresholds.min_avg_dollar_vol_20d.getD 3000000
  let min_market_cap := thresholds.min_market_cap.getD 200000000
  let min_price := thresholds.min_price.getD 3
  let avg_dollar_vol_20d := price_summary.avg_dollar_vol_20d
  let market_cap := price_summary.market_cap
  let last_close := price_summary.last_close
  let gate_liquidity := strictGate avg_dollar_vol_20d min_dollar_vol
  let gate_market_cap := strictGate market_cap min_market_cap
  let gate_price := strictGate last_close min_price
  let cash := sec_metrics.cash_and_equivalents
  let cfo := sec_metrics.operating_cash_flow
  let fcf := sec_metrics.free_cash_flow
  let gross_margin := sec_metrics.gross_margin
  let sbc := sec_metrics.stock_based_compensation
  let data_sufficient_fundamentals := decide (2 ≤ fundamentalsPresentCount sec_metrics)
  let gate_gross_margin :=
    gateGrossMarginOf data_sufficient_fundamentals (thresholds.min_gross_margin.getD (1/5))
      gross_margin
  let burn := burnOf fcf cfo
  let runway_months := runwayMonthsOf cash burn
  let gate_runway :=
    gateRunwayOf data_sufficient_fundamentals (thresholds.min_runway_months.getD 12) runway_months
  let pass_hard_gates :=
    gate_liquidity && gate_market_cap && gate_price && gate_gross_margin && gate_runway
  { pass_hard_gates := pass_hard_gates,
    data_sufficient_fundamentals := data_sufficient_fundamentals,
    avg_dollar_vol_20d := avg_dollar_vol_20d, market_cap := market_cap,
    last_close := last_close, cash_and_equivalents := cash,
    operating_cash_flow := cfo, free_cash_flow := fcf, gross_margin := gross_margin,
    stock_based_compensation := sbc, runway_months := runway_months,
    gate_liquidity := gate_liquidity, gate_market_cap := gate_market_cap,
    gate_price := gate_price, gate_gross_margin := gate_gross_margin,
    gate_runway := gate_runway, days_since_ipo := days_since_ipo }

/-- `scoring.compute_total_score`. The `price_summary` argument exists in the
source signature but is never read in the body. -/
def compute_total_score (hard_gates : HardGateResult) (momentum : MomentumResult)
    (price_summary : PriceSummary) (sec_metrics : SecMetrics) (weights : Weights) :
    CompositeScore :=
  let w_liq := weights.liquidity.getD 40
  let w_mom := weights.momentum.getD 35
  let w_fund := weights.fundamentals.getD 25
  let liq_points :=
    (if hard_gates.gate_liquidity then (1 : ℚ)/2 else 0)
      + (if hard_gates.gate_market_cap then (3 : ℚ)/10 else 0)
      + (if hard_gates.gate_price then (1 : ℚ)/5 else 0)
  let score_liq := w_liq * liq_points
  let mom_conditions := [momentum.cond_ma_stack, momentum.cond_slope_up, momentum.cond_ret,
    momentum.cond_drawdown, momentum.cond_dev]
  let mom_total := (mom_conditions.filter (fun o => o.isSome)).length
  let mom_hits := (mom_conditions.filter (fun o => o == some true)).length
  let score_mom := if mom_total = 0 then (0 : ℚ) else w_mom * ((mom_hits : ℚ) / (mom_total : ℚ))
  let data_ok := hard_gates.data_sufficient_fundamentals
  let p1 : ℚ × ℕ :=
    match sec_metrics.gross_margin with
    | some g => (max 0 (min 1 (g / (3/5))), 1)
    | none => (0, 0)
  let p2 : ℚ × ℕ :=
    match hard_gates.runway_months with
    | some r => (max 0 (min 1 (r / 24)), 1)
    | none => (0, 0)
  let fund_score_raw := p1.1 + p2.1
  let fund_parts := p1.2 + p2.2
  let score_fund :=
    if fund_parts = 0 then w_fund * (if data_ok then 0 else (1 : ℚ)/4)
    else w_fund * (fund_score_raw / (fund_parts : ℚ))
  let score_total := max 0 (min 100 (score_liq + score_mom + score_fund))
  { score_total := score_total,
    score_components :=
      { liquidity := score_liq, momentum := score_mom, fundamentals := score_fund } }

/-- The keys-vary best-effort view of `yf.Ticker(t).fast_info` that
`compute_price_summary` reads. -/
structure FastInfo where
  market_cap : Option ℚ
  marketCap : Option ℚ
  currency : Option String
deriving Repr, DecidableEq

/-- The view of `yf.Ticker(t).info` that `compute_price_summary` reads. -/
structure InfoDict where
  marketCap : Option ℚ
  currency : Option String
deriving Repr, DecidableEq

/-- The external quote collaborator as seen by one invocation of
`compute_price_summary`: what `get_quote_fast_info` and `get_quote_info` would
return (`none` models the falsy empty dict returned on failure). -/
structure QuoteEnv where
  fast : Option FastInfo
  info : Option InfoDict
deriving Repr, DecidableEq

/-- Python `a or b` on optional numbers: `a` when present and nonzero
(truthy), else `b`. -/
def pyOrQ (a b : Option ℚ) : Option ℚ :=
  match a with
  | some x => if x = 0 then b else some x
  | none => b

/-- Python `a or b` on optional strings: `a` when present and non-empty
(truthy), else `b`. -/
def pyOrS (a b : Option String) : Option String :=
  match a with
  | some s => if s = "" then b else some s
  | none => b

/-- `market.compute_price_summary`. The source fetches quote data from the
network inside the function (`get_quote_fast_info` / `get_quote_info`); that
external state is made explicit here as the `env` argument. -/
def compute_price_summary (ticker : String) (hist : Option Hist) (env : QuoteEnv) :
    PriceSummary :=
  let last_close : Option ℚ :=
    match hist with
    | none => none
    | some h =>
      if h.rows = [] ∨ h.hasClose = false then none
      else (closeSeries h).getLast?
  let advol : Option ℚ :=
    match hist with
    | none => none
    | some h =>
      if h.rows = [] ∨ h.hasClose = false ∨ h.hasVolume = false then none
      else
        let tail20 := takeLast 20 (h.rows.filterMap (fun r =>
          match r.close, r.volume with
          | some c, some v => some (c * v)
          | _, _ => none))
        if tail20 = [] then none else some (tail20.sum / (tail20.length : ℚ))
  let mcCur1 : Option ℚ × Option String :=
    match env.fast with
    | some f => (pyOrQ (pyOrQ f.market_cap f.marketCap) none, pyOrS f.currency none)
    | none => (none, none)
  let mcCur2 : Option ℚ × Option String :=
    if mcCur1.1 = none then
      match env.info with
      | some i => (i.marketCap, pyOrS mcCur1.2 i.currency)
      | none => (none, pyOrS mcCur1.2 none)
    else mcCur1
  { ticker := ticker, last_close := last_close, avg_dollar_vol_20d := advol,
    market_cap := mcCur2.1, currency := mcCur2.2 }

/-- A one-row history used to witness the insufficient-history behaviour. -/
def histW4 : Hist := { hasClose := true, hasVolume := true, rows := [{ close := some 1, volume := none }] }

/-- An empty price summary used by several concrete instances. -/
def psEmptyW5 : PriceSummary :=
  { ticker := "W5", last_close := none, avg_dollar_vol_20d := none,
    market_cap := none, currency := none }

/-- Fundamentals with a single (hopeless) field present. -/
def smW5 : SecMetrics :=
  { cash_and_equivalents := none, operating_cash_flow := none, free_cash_flow := none,
    gross_margin := some (-5), stock_based_compensation := none }

/-- An empty thresholds mapping: every key falls back to its default. -/
def thEmptyW5 : Thresholds :=
  { min_avg_dollar_vol_20d := none, min_market_cap := none, min_price := none,
    min_gross_margin := none, min_runway_months := none }

/-- Fundamentals for the C10 witness: three fields present (sufficient data),
positive cash flows, so no burn exists. -/
def smW10 : SecMetrics :=
  { cash_and_equivalents := some 10000000, operating_cash_flow := some 3000000,
    free_cash_flow := some 5000000, gross_margin := none, stock_based_compensation := none }

/-- Price summary for the C10 witness. -/
def psW10 : PriceSummary :=
  { ticker := "W10", last_close := some 4, avg_dollar_vol_20d := some 5000000,
    market_cap := some 250000000, currency := some "USD" }

/-- Thresholds for the C10 witness: all defaults. -/
def thW10 : Thresholds :=
  { min_avg_dollar_vol_20d := none, min_market_cap := none, min_price := none,
    min_gross_margin := none, min_runway_months := none }

/-- Hard-gate record for the C8 witness: insufficient data, no runway. -/
def hgW8 : HardGateResult :=
  { pass_hard_gates := false, data_sufficient_fundamentals := false,
    avg_dollar_vol_20d := none, market_cap := none, last_close := none,
    cash_and_equivalents := none, operating_cash_flow := none, free_cash_flow := none,
    gross_margin := none, stock_based_compensation := none, runway_months := none,
    gate_liquidity := false, gate_market_cap := false, gate_price := false,
    gate_gross_margin := true, gate_runway := true, days_since_ipo := none }

/-- Fundamentals for the C8 witness: nothing present. -/
def smW8 : SecMetrics :=
  { cash_and_equivalents := none, operating_cash_flow := none, free_cash_flow := none,
    gross_margin := none, stock_based_compensation := none }

/-- Price summary for the C8 witness. -/
def psW8 : PriceSummary :=
  { ticker := "W8", last_close := none, avg_dollar_vol_20d := none,
    market_cap := none, currency := none }

/-- Weights for the C8 witness: all defaults (40/35/25). -/
def wW8 : Weights := { liquidity := none, momentum := none, fundamentals := none }

/-- Modelled from the C6 claim wording: a momentum condition counts as defined
when its underlying numeric value is non-None — the MA-stack condition needs
both SMA values, the slope condition its slope, and the return, drawdown and
deviation conditions their respective values. -/
def claimDefinedCount (m : MomentumResult) : ℕ :=
  (if m.last_sma_fast.isSome && m.last_sma_slow.isSome then 1 else 0) +
  (if m.sma_fast_slope.isSome then 1 else 0) +
  (if m.ret.isSome then 1 else 0) +
  (if m.drawdown_from_peak.isSome then 1 else 0) +
  (if m.dev_from_sma_fast.isSome then 1 else 0)

/-- Modelled from the C6 claim wording: among the defined conditions, how many
flags are true. -/
def claimHitCount (m : MomentumResult) : ℕ :=
  (if (m.last_sma_fast.isSome && m.last_sma_slow.isSome) && m.cond_ma_stack == some true
    then 1 else 0) +
  (if m.sma_fast_slope.isSome && m.cond_slope_up == some true then 1 else 0) +
  (if m.ret.isSome && m.cond_ret == some true then 1 else 0) +
  (if m.drawdown_from_peak.isSome && m.cond_drawdown == some true then 1 else 0) +
  (if m.dev_from_sma_fast.isSome && m.cond_dev == some true then 1 else 0)

/-- Modelled from the C6 claim wording: the claimed momentum component,
`w_momentum * hits / total` over defined conditions, `0` when none was
evaluated. -/
def claimMomentumScore (w_mom : ℚ) (m : MomentumResult) : ℚ :=
  if claimDefinedCount m = 0 then 0
  else w_mom * ((claimHitCount m : ℚ) / (claimDefinedCount m : ℚ))

/-- Number of momentum condition flags present in the result dict and true:
exactly the count the aggregator computes. -/
def momHitCount (m : MomentumResult) : ℕ :=
  ([m.cond_ma_stack, m.cond_slope_up, m.cond_ret, m.cond_drawdown, m.cond_dev].filter
    (fun o => o == some true)).length

/-- Close series for the C6 counterexample: eight rows with a zero close at the
`ret_window`-lagged position, so `ret` is undefined while all five condition
flags are still present in the result dict. -/
def rowsC6 : List Row :=
  [{ close := some 1, volume := some 1 }, { close := some 1, volume := some 1 },
   { close := some 1, volume := some 1 }, { close := some 1, volume := some 1 },
   { close := some 1, volume := some 1 }, { close := some 0, volume := some 1 },
   { close := some 1, volume := some 1 }, { close := some 1, volume := some 1 }]

/-- The analyzer output on `rowsC6` with windows small enough that eight rows
are sufficient history (`sma_fast=2, sma_slow=3, slope_window=2, ret_window=2,
peak_window=3`). -/
def momC6 : MomentumResult :=
  compute_momentum_flags (some { hasClose := true, hasVolume := true, rows := rowsC6 })
    2 3 2 2 (1/20) 3 (2/25) (3/20)

/-- The value of `momC6`, spelled out. -/
def momC6Lit : MomentumResult :=
  { pass_momentum := false, reason := none, n_close := none,
    cond_ma_stack := some false, cond_slope_up := some true, cond_ret := some false,
    cond_drawdown := some true, cond_dev := some true,
    last_close := some 1, last_sma_fast := some 1, last_sma_slow := some (2/3),
    sma_fast_slope := some (1/2), ret_window := some 2, ret := none,
    peak_window := some 3, drawdown_from_peak := some 0, dev_from_sma_fast := some 0 }

/-- Hard-gate record for the C6 counterexample. -/
def hgC6 : HardGateResult :=
  { pass_hard_gates := false, data_sufficient_fundamentals := false,
    avg_dollar_vol_20d := none, market_cap := none, last_close := none,
    cash_and_equivalents := none, operating_cash_flow := none, free_cash_flow := none,
    gross_margin := none, stock_based_compensation := none, runway_months := none,
    gate_liquidity := false, gate_market_cap := false, gate_price := false,
    gate_gross_margin := true, gate_runway := true, days_since_ipo := none }

/-- Price summary for the C6 counterexample. -/
def psC6 : PriceSummary :=
  { ticker := "C6", last_close := some 1, avg_dollar_vol_20d := none,
    market_cap := none, currency := none }

/-- Fundamentals for the C6 counterexample: nothing present. -/
def smC6 : SecMetrics :=
  { cash_and_equivalents := none, operating_cash_flow := none, free_cash_flow := none,
    gross_margin := none, stock_based_compensation := none }

/-- Weights for the C6 counterexample: defaults, so `w_momentum = 35`. -/
def wC6 : Weights := { liquidity := none, momentum := none, fundamentals := none }

/-- Written from the C7 spec sentence (with the corrected row-count condition):
the `close * volume` products of the rows with both fields non-null. -/
def validDollarRows (rows : List Row) : List ℚ :=
  (rows.filter (fun r => r.close.isSome && r.volume.isSome)).map
    (fun r => r.close.getD 0 * r.volume.getD 0)

/-- Written from the C7 spec sentence (with the corrected row-count condition):
the mean of `close * volume` over the last 20 rows with both fields non-null,
absent only when no such row exists or the history itself is absent, empty, or
lacks a column. -/
def avgDollarVolDescribed (hist : Option Hist) : Option ℚ :=
  match hist with
  | none => none
  | some h =>
    if h.rows = [] ∨ h.hasClose = false ∨ h.hasVolume = false then none
    else
      let l := takeLast 20 (validDollarRows h.rows)
      if l = [] then none else some (l.sum / (l.length : ℚ))

/-- History with exactly one row having both close and volume: the C7 claim
would demand `avg_dollar_vol_20d = None` here (fewer than 5 valid rows). -/
def histC7 : Hist :=
  { hasClose := true, hasVolume := true, rows := [{ close := some 2, volume := some 3 }] }

/-- Quote environment where both collaborators fail. -/
def envC7 : QuoteEnv := { fast := none, info := none }

/-- Quote environment whose fast collaborator reports a market cap. -/
def envA9 : QuoteEnv :=
  { fast := some { market_cap := some 5000000000, marketCap := none, currency := none },
    info := none }

/-- Quote environment where both collaborators fail (C9 instance). -/
def envB9 : QuoteEnv := { fast := none, info := none }

/-- Whether `compute_momentum_flags` gets past its first guard: the history is
present, non-empty, and has a `Close` column. -/
def histUsable (hist : Option Hist) : Bool :=
  match hist with
  | none => false
  | some h => !(h.rows.isEmpty) && h.hasClose

/-- The non-null close series that `compute_momentum_flags` derives from its
input (empty when the first guard already rejects the input). -/
def momClose (hist : Option Hist) : List ℚ :=
  match hist with
  | none => []
  | some h => if h.rows = [] ∨ h.hasClose = false then [] else closeSeries h

/-- C1: for every input to the score aggregator, the returned `score_total`
lies in the closed interval `[0, 100]`. -/
theorem C1_score_total_in_range (hg : HardGateResult) (m : MomentumResult)
    (ps : PriceSummary) (sm : SecMetrics) (w : Weights) :
    0 ≤ (compute_total_score hg m ps sm w).score_total ∧
      (compute_total_score hg m ps sm w).score_total ≤ 100 := by
  unfold compute_total_score
  exact ⟨le_max_left 0 _, max_le (by norm_num) (min_le_left 100 _)⟩

/-- C2: `pass_hard_gates` equals the conjunction of `gate_liquidity`,
`gate_market_cap`, `gate_price`, `gate_gross_margin` and `gate_runway`; in
particular it is true only when every strict gate is true. -/
theorem C2_pass_hard_gates_conjunction (ps : PriceSummary) (sm : SecMetrics)
    (d : Option ℤ) (th : Thresholds) :
    (compute_hard_gates ps sm d th).pass_hard_gates =
      ((compute_hard_gates ps sm d th).gate_liquidity &&
        (compute_hard_gates ps sm d th).gate_market_cap &&
        (compute_hard_gates ps sm d th).gate_price &&
        (compute_hard_gates ps sm d th).gate_gross_margin &&
        (compute_hard_gates ps sm d th).gate_runway) := rfl

/-- C3: for every momentum input, `pass_momentum` is true exactly when all five
condition flags are present and true; whenever any of them is false (or
absent), `pass_momentum` is false. -/
theorem C3_pass_momentum_iff_all_conditions (hist : Option Hist)
    (sf ss sw rw : ℕ) (rm : ℚ) (pw : ℕ) (mdd mdev : ℚ) :
    ((compute_momentum_flags hist sf ss sw rw rm pw mdd mdev).pass_momentum = true ↔
      ((compute_momentum_flags hist sf ss sw rw rm pw mdd mdev).cond_ma_stack = some true ∧
        (compute_momentum_flags hist sf ss sw rw rm pw mdd mdev).cond_slope_up = some true ∧
        (compute_momentum_flags hist sf ss sw rw rm pw mdd mdev).cond_ret = some true ∧
        (compute_momentum_flags hist sf ss sw rw rm pw mdd mdev).cond_drawdown = some true ∧
        (compute_momentum_flags hist sf ss sw rw rm pw mdd mdev).cond_dev = some true)) := by
  unfold compute_momentum_flags
  cases hist with
  | none => simp [noPriceDataResult]
  | some h =>
    dsimp only
    by_cases h1 : h.rows = [] ∨ h.hasClose = false
    · simp [h1, noPriceDataResult]
    · rw [if_neg h1]
      by_cases h2 : closeSeries h = [] ∨
          (closeSeries h).length < max ss (max pw rw) + 5
      · simp [h2, insufficientHistoryResult]
      · rw [if_neg h2]
        unfold momentumSufficient
        simp only [Bool.and_eq_true, Option.some.injEq]
        tauto

/-- C4 counterexample: on the empty history (a present DataFrame with no rows,
hence a non-null close series far shorter than required) the analyzer returns
reason `"no_price_data"`, not `"insufficient_history"` as the claim states. -/
theorem C4_counterexample_empty_history :
    (compute_momentum_flags (some { hasClose := true, hasVolume := true, rows := [] })
        20 50 20 20 (1/20) 60 (2/25) (3/20)).reason = some "no_price_data" ∧
      some "no_price_data" ≠ some "insufficient_history" := by
  constructor
  · rfl
  · decide

/-- C4 amended: whenever the non-null close series is shorter than
`max(sma_slow, peak_window, ret_window) + 5`, the analyzer raises no exception
and returns `pass_momentum = false` with every condition flag absent from the
result (hence never true); the reason is `"insufficient_history"` when the
input passed the first guard (present, non-empty, `Close` column exists) and
`"no_price_data"` otherwise — in particular the empty history is reported as
`"no_price_data"`. -/
theorem C4_amended_insufficient_history (hist : Option Hist)
    (sf ss sw rw : ℕ) (rm : ℚ) (pw : ℕ) (mdd mdev : ℚ)
    (hlen : (momClose hist).length < max ss (max pw rw) + 5) :
    (compute_momentum_flags hist sf ss sw rw rm pw mdd mdev).pass_momentum = false ∧
    (compute_momentum_flags hist sf ss sw rw rm pw mdd mdev).cond_ma_stack = none ∧
    (compute_momentum_flags hist sf ss sw rw rm pw mdd mdev).cond_slope_up = none ∧
    (compute_momentum_flags hist sf ss sw rw rm pw mdd mdev).cond_ret = none ∧
    (compute_momentum_flags hist sf ss sw rw rm pw mdd mdev).cond_drawdown = none ∧
    (compute_momentum_flags hist sf ss sw rw rm pw mdd mdev).cond_dev = none ∧
    (compute_momentum_flags hist sf ss sw rw rm pw mdd mdev).reason =
      some (if histUsable hist then "insufficient_history" else "no_price_data") := by
  unfold compute_momentum_flags
  cases hist with
  | none => simp [noPriceDataResult, histUsable]
  | some h =>
    dsimp only
    by_cases h1 : h.rows = [] ∨ h.hasClose = false
    · have hu : histUsable (some h) = false := by
        rcases h1 with h1 | h1 <;> simp [histUsable, h1]
    
      simp [h1, hu, noPriceDataResult]
    · have hu : histUsable (some h) = true := by
        rw [not_or] at h1
        simp [histUsable, h1.1, h1.2]
      have hm : momClose (some h) = closeSeries h := by
        simp [momClose, h1]
      rw [if_neg h1]
      have h2 : closeSeries h = [] ∨ (closeSeries h).length < max ss (max pw rw) + 5 :=
        Or.inr (hm ▸ hlen)
      rw [if_pos h2]
      simp [insufficientHistoryResult, hu]

/-- C4 witness: a one-row history satisfies the length hypothesis and yields
the insufficient-history behaviour. -/
theorem C4_amended_witness :
    (momClose (some histW4)).length < max 50 (max 60 20) + 5 ∧
    ((compute_momentum_flags (some histW4) 20 50 20 20 (1/20) 60 (2/25) (3/20)).pass_momentum
        = false ∧
      (compute_momentum_flags (some histW4) 20 50 20 20 (1/20) 60 (2/25) (3/20)).cond_ma_stack
        = none ∧
      (compute_momentum_flags (some histW4) 20 50 20 20 (1/20) 60 (2/25) (3/20)).cond_slope_up
        = none ∧
      (compute_momentum_flags (some histW4) 20 50 20 20 (1/20) 60 (2/25) (3/20)).cond_ret
        = none ∧
      (compute_momentum_flags (some histW4) 20 50 20 20 (1/20) 60 (2/25) (3/20)).cond_drawdown
        = none ∧
      (compute_momentum_flags (some histW4) 20 50 20 20 (1/20) 60 (2/25) (3/20)).cond_dev
        = none ∧
      (compute_momentum_flags (some histW4) 20 50 20 20 (1/20) 60 (2/25) (3/20)).reason
        = some (if histUsable (some histW4) then "insufficient_history" else "no_price_data")) :=
  ⟨by decide, C4_amended_insufficient_history (some histW4) 20 50 20 20 (1/20) 60 (2/25) (3/20)
    (by decide)⟩


/-- C5: when fewer than 2 of the five fundamentals fields are present, the
hard-gate evaluator marks the data insufficient and leaves both soft gates
true, whatever the present values are. -/
theorem C5_insufficient_fundamentals_soft_gates (ps : PriceSummary) (sm : SecMetrics)
    (d : Option ℤ) (th : Thresholds)
    (hcount : fundamentalsPresentCount sm < 2) :
    (compute_hard_gates ps sm d th).data_sufficient_fundamentals = false ∧
    (compute_hard_gates ps sm d th).gate_gross_margin = true ∧
    (compute_hard_gates ps sm d th).gate_runway = true := by
  have hd : decide (2 ≤ fundamentalsPresentCount sm) = false := by
    simp only [decide_eq_false_iff_not, not_le]
    exact hcount
  unfold compute_hard_gates
  refine ⟨hd, ?_, ?_⟩
  · simp only [hd, gateGrossMarginOf]
    cases sm.gross_margin <;> simp
  · simp only [hd, gateRunwayOf]
    cases runwayMonthsOf sm.cash_and_equivalents
        (burnOf sm.free_cash_flow sm.operating_cash_flow) <;> simp

/-- C5 witness: only `gross_margin` is present, with a hopeless value, yet the
record is marked insufficient and both soft gates stay true. -/
theorem C5_witness :
    fundamentalsPresentCount smW5 < 2 ∧
    ((compute_hard_gates psEmptyW5 smW5 none thEmptyW5).data_sufficient_fundamentals = false ∧
      (compute_hard_gates psEmptyW5 smW5 none thEmptyW5).gate_gross_margin = true ∧
      (compute_hard_gates psEmptyW5 smW5 none thEmptyW5).gate_runway = true) :=
  ⟨by decide, C5_insufficient_fundamentals_soft_gates psEmptyW5 smW5 none thEmptyW5 (by decide)⟩

/-- C8: when neither fundamentals sub-signal is available (`gross_margin`
absent and `runway_months` absent), the fundamentals component equals
`0.25 * w_fundamentals` when data is insufficient and `0` when it is
sufficient. -/
theorem C8_fundamentals_fallback (hg : HardGateResult) (m : MomentumResult)
    (ps : PriceSummary) (sm : SecMetrics) (w : Weights)
    (hgm : sm.gross_margin = none) (hrw : hg.runway_months = none) :
    (compute_total_score hg m ps sm w).score_components.fundamentals =
      (if hg.data_sufficient_fundamentals then 0 else (w.fundamentals.getD 25) * (1/4)) := by
  unfold compute_total_score
  simp only [hgm, hrw]
  cases hg.data_sufficient_fundamentals <;> simp

/-- C8 witness: an empty fundamentals record with insufficient data earns the
neutral `25 * 0.25` fundamentals credit. -/
theorem C8_witness :
    (smW8.gross_margin = none ∧ hgW8.runway_months = none) ∧
    (compute_total_score hgW8 noPriceDataResult psW8 smW8 wW8).score_components.fundamentals =
      (if hgW8.data_sufficient_fundamentals then 0 else (wW8.fundamentals.getD 25) * (1/4)) :=
  ⟨⟨rfl, rfl⟩, C8_fundamentals_fallback hgW8 noPriceDataResult psW8 smW8 wW8 rfl rfl⟩

/-- C10: with sufficient fundamentals but no computable runway (cash absent,
or neither cash-flow figure negative so no burn exists), the runway gate stays
true and `runway_months` is `None`; the threshold is never compared. -/
theorem C10_runway_gate_open (ps : PriceSummary) (sm : SecMetrics)
    (d : Option ℤ) (th : Thresholds)
    (hds : 2 ≤ fundamentalsPresentCount sm)
    (hnb : sm.cash_and_equivalents = none ∨
      ((∀ x, sm.free_cash_flow = some x → 0 ≤ x) ∧
        (∀ x, sm.operating_cash_flow = some x → 0 ≤ x))) :
    (compute_hard_gates ps sm d th).gate_runway = true ∧
    (compute_hard_gates ps sm d th).runway_months = none := by
  have hrm : runwayMonthsOf sm.cash_and_equivalents
      (burnOf sm.free_cash_flow sm.operating_cash_flow) = none := by
    rcases hnb with hc | ⟨hf, ho⟩
    · rw [hc]
      cases burnOf sm.free_cash_flow sm.operating_cash_flow <;> rfl
    · have hb : burnOf sm.free_cash_flow sm.operating_cash_flow = none := by
        unfold burnOf
        cases hfc : sm.free_cash_flow with
        | some f =>
          dsimp only
          rw [if_neg (not_lt.mpr (hf f hfc))]
          cases hoc : sm.operating_cash_flow with
          | some c =>
            dsimp only
            rw [if_neg (not_lt.mpr (ho c hoc))]
          | none => rfl
        | none =>
          dsimp only
          cases hoc : sm.operating_cash_flow with
          | some c =>
            dsimp only
            rw [if_neg (not_lt.mpr (ho c hoc))]
          | none => rfl
      rw [hb]
      cases sm.cash_and_equivalents <;> rfl
  unfold compute_hard_gates
  exact ⟨by simp only [hrm, gateRunwayOf], hrm⟩

/-- C10 witness: sufficient data, positive cash flows, cash present: the gate
stays open with no runway value. -/
theorem C10_witness :
    (2 ≤ fundamentalsPresentCount smW10) ∧
    ((compute_hard_gates psW10 smW10 none thW10).gate_runway = true ∧
      (compute_hard_gates psW10 smW10 none thW10).runway_months = none) :=
  ⟨by decide,
    C10_runway_gate_open psW10 smW10 none thW10 (by decide)
      (Or.inr ⟨fun x hx => by
          have h5 : (5000000 : ℚ) = x := Option.some.inj hx
          rw [← h5]
          norm_num,
        fun x hx => by
          have h3 : (3000000 : ℚ) = x := Option.some.inj hx
          rw [← h3]
          norm_num⟩)⟩

/-- C6 counterexample: on `rowsC6` the return condition is undefined
(`ret = None`) yet its flag is present (as false), so the aggregator divides
the three satisfied conditions by 5 (score `35 * 3/5 = 21`), while the claimed
formula divides by the four defined conditions (score `35 * 3/4 = 26.25`). -/
theorem C6_counterexample_undefined_ret :
    momC6.ret = none ∧
    (compute_total_score hgC6 momC6 psC6 smC6 wC6).score_components.momentum = 21 ∧
    claimMomentumScore 35 momC6 = 105/4 ∧
    (21 : ℚ) ≠ 105/4 := by
  have hm : momC6 = momC6Lit := by
    norm_num [momC6, momC6Lit, compute_momentum_flags, momentumSufficient, closeSeries,
      rowsC6, smaSeries, lastSMA, slope_last_n, takeLast, List.filterMap_cons,
      List.range_succ, List.getLastD, List.getD, List.max?, List.cons_ne_nil, ne_eq]
  refine ⟨by rw [hm]; rfl, ?_, ?_, by norm_num⟩
  · rw [hm]
    norm_num [compute_total_score, momC6Lit, hgC6, smC6, wC6, List.filter_cons]
  · rw [hm]
    norm_num [claimMomentumScore, claimDefinedCount, claimHitCount, momC6Lit]

/-- C6 amended: the aggregator divides by the number of condition flags present
in the momentum dict, which is 5 for any result computed on sufficient history
(a condition with an undefined underlying value is present with flag false and
still counted in the denominator), and the momentum component is 0 exactly for
the insufficient-data results, which carry no flags. -/
theorem C6_amended_momentum_score (hist : Option Hist) (sf ss sw rw : ℕ) (rm : ℚ)
    (pw : ℕ) (mdd mdev : ℚ) (hg : HardGateResult) (ps : PriceSummary)
    (sm : SecMetrics) (w : Weights) :
    (compute_total_score hg (compute_momentum_flags hist sf ss sw rw rm pw mdd mdev)
        ps sm w).score_components.momentum =
      (if (compute_momentum_flags hist sf ss sw rw rm pw mdd mdev).reason = none then
        (w.momentum.getD 35) *
          ((momHitCount (compute_momentum_flags hist sf ss sw rw rm pw mdd mdev) : ℚ) / 5)
      else 0) := by
  cases hist with
  | none =>
    have hr : compute_momentum_flags none sf ss sw rw rm pw mdd mdev = noPriceDataResult := rfl
    rw [hr]
    simp [compute_total_score, noPriceDataResult, momHitCount]
  | some h =>
    by_cases h1 : h.rows = [] ∨ h.hasClose = false
    · have hr : compute_momentum_flags (some h) sf ss sw rw rm pw mdd mdev =
          noPriceDataResult := by
        unfold compute_momentum_flags
        dsimp only
        rw [if_pos h1]
      rw [hr]
      simp [compute_total_score, noPriceDataResult, momHitCount]
    · by_cases h2 : closeSeries h = [] ∨ (closeSeries h).length < max ss (max pw rw) + 5
      · have hr : compute_momentum_flags (some h) sf ss sw rw rm pw mdd mdev =
            insufficientHistoryResult (closeSeries h).length := by
          unfold compute_momentum_flags
          dsimp only
          rw [if_neg h1, if_pos h2]
        rw [hr]
        simp [compute_total_score, insufficientHistoryResult, momHitCount]
      · have hr : compute_momentum_flags (some h) sf ss sw rw rm pw mdd mdev =
            momentumSufficient (closeSeries h) sf ss sw rw rm pw mdd mdev := by
          unfold compute_momentum_flags
          dsimp only
          rw [if_neg h1, if_neg h2]
        rw [hr]
        simp [compute_total_score, momentumSufficient, momHitCount, List.filter_cons]

/-- Helper for C7: the filter-then-map description of the valid dollar-volume
rows agrees with the filterMap the summarizer computes. -/
theorem filterMap_dollar_eq (rows : List Row) :
    rows.filterMap (fun r =>
      match r.close, r.volume with
      | some c, some v => some (c * v)
      | _, _ => none) = validDollarRows rows := by
  induction rows with
  | nil => rfl
  | cons r t ih =>
    cases hc : r.close <;> cases hv : r.volume <;>
      simp [List.filterMap_cons, validDollarRows, List.filter_cons, hc, hv, ih,
        validDollarRows.eq_def]

/-- C7 counterexample: a history with a single valid row (fewer than 5) still
yields `avg_dollar_vol_20d = 6`, not `None` as the claim states: the source
only requires the 20-row tail to be non-empty. -/
theorem C7_counterexample_single_valid_row :
    (validDollarRows histC7.rows).length = 1 ∧
    (compute_price_summary "X7" (some histC7) envC7).avg_dollar_vol_20d = some 6 ∧
    some (6 : ℚ) ≠ none := by
  refine ⟨by decide, ?_, by simp⟩
  norm_num [compute_price_summary, histC7, envC7, takeLast, List.filterMap_cons]

/-- C7 amended: `avg_dollar_vol_20d` is the mean of `close * volume` over the
last 20 rows in which both fields are non-null, and is `None` exactly when no
such row exists (or the history is absent, empty, or lacks a column) — the
threshold is one valid row, not five. -/
theorem C7_amended_avg_dollar_vol (t : String) (hist : Option Hist) (env : QuoteEnv) :
    (compute_price_summary t hist env).avg_dollar_vol_20d = avgDollarVolDescribed hist := by
  unfold compute_price_summary avgDollarVolDescribed
  cases hist with
  | none => rfl
  | some h =>
    dsimp only
    rw [filterMap_dollar_eq]

/-- C9 counterexample: two invocations of the price summarizer with identical
`(ticker, hist)` inputs differ when the internally fetched quote data differs,
so the source function is not a pure function of its declared inputs. -/
theorem C9_counterexample_quote_dependence :
    compute_price_summary "AAA" none envA9 ≠ compute_price_summary "AAA" none envB9 := by
  intro h
  have hmc := congrArg PriceSummary.market_cap h
  norm_num [compute_price_summary, envA9, envB9, pyOrQ, Option.some_ne_none] at hmc

/-- C9 amended: the momentum analyzer, hard-gate evaluator and score
aggregator are pure functions of their explicit arguments (they are embedded
as total functions of exactly the data the source reads), and the price
summarizer is pure only once the externally fetched quote responses are added
to its inputs: its `ticker`, `last_close` and `avg_dollar_vol_20d` fields do
not depend on the quote environment, while `market_cap`/`currency` do. -/
theorem C9_amended_determinism (t : String) (hist : Option Hist) (e1 e2 : QuoteEnv) :
    (compute_price_summary t hist e1).ticker = (compute_price_summary t hist e2).ticker ∧
    (compute_price_summary t hist e1).last_close =
      (compute_price_summary t hist e2).last_close ∧
    (compute_price_summary t hist e1).avg_dollar_vol_20d =
      (compute_price_summary t hist e2).avg_dollar_vol_20d :=
  ⟨rfl, rfl, rfl⟩
